import Mathlib

/-
Shallow embedding of the access/quota core of the navigator telegram bot.

Source of truth: src/telegram_bot/access.py and src/telegram_bot/models.py.

Modelling conventions:
  * Wall-clock instants are `Int` values counting seconds (UTC).  The Python
    `datetime.now(timezone.utc)` becomes an explicit `now : Int` parameter of
    each operation, and `timedelta(days = d)` becomes `d * SECONDS_PER_DAY`.
    `normalize_datetime_to_utc` is the identity in this model: every stored
    instant is already an absolute `Int`, which is exactly what the Python
    helper establishes (it only attaches the UTC zone to naive values, never
    shifting them).  `timedelta.days` is floor division by a day, `Int.fdiv`.
  * The two SQLAlchemy tables (users keyed by the unique `telegram_id`
    column, activation codes keyed by the unique `code` column) are modelled
    as partial maps `Int → Option User` and `String → Option ActivationCode`.
    An ORM query `.filter(key).first()` is a map lookup; `db.add` plus
    `commit`, and mutation of a fetched row plus `commit`, are updates of the
    map at that key.
  * User-facing Russian strings are represented by constructors of
    `BotMessage` / `ProfileText` carrying exactly the data interpolated into
    the corresponding Python f-string, one constructor per distinct literal.
-/

namespace NavigatorBot

/-- PLAN_REQUESTS from access.py: number of requests in one plan. -/
def PLAN_REQUESTS : Int := 100

/-- PLAN_DAYS from access.py: validity of one plan, in days. -/
def PLAN_DAYS : Int := 30

/-- Seconds in one day; used to embed `timedelta(days = n)` as `n * SECONDS_PER_DAY`. -/
def SECONDS_PER_DAY : Int := 86400

/-- The duration `timedelta(days=PLAN_DAYS)` measured in seconds. -/
def planDurationSeconds : Int := PLAN_DAYS * SECONDS_PER_DAY

/-- REQUEST_WARNING_THRESHOLDS from access.py. -/
def REQUEST_WARNING_THRESHOLDS : List Int := [30, 10, 3]

/-- DAY_WARNING_THRESHOLDS from access.py. -/
def DAY_WARNING_THRESHOLDS : List Int := [7, 3, 1]

/-- Row of the `users` table (models.py, class User).  Integer columns have
server default 0 and are non-null in every row the code itself creates;
`RawUser` below additionally models legacy rows where they may be NULL. -/
structure User where
  telegram_id : Int
  total_requests_in_plan : Int
  used_requests_in_plan : Int
  total_requests_all_time : Int
  expires_at : Option Int
  last_activation_at : Option Int
  last_request_at : Option Int
  created_at : Int
  updated_at : Int
deriving Repr, DecidableEq

/-- Row of the `activation_codes` table (models.py, class ActivationCode). -/
structure ActivationCode where
  code : String
  telegram_id : Option Int
  created_at : Int
  used_at : Option Int
deriving Repr, DecidableEq

/-- The backing store: the two tables, each addressed by its unique key. -/
structure Db where
  users : Int → Option User
  codes : String → Option ActivationCode

/-- A store with no rows at all. -/
def emptyDb : Db := { users := fun _ => none, codes := fun _ => none }

/-- Write a user row at key `telegram_id` (ORM add / fetched-row mutation plus commit). -/
def putUser (db : Db) (telegram_id : Int) (user : User) : Db :=
  { db with users := fun t => if t == telegram_id then some user else db.users t }

/-- Write a code row at key `code` (ORM add / fetched-row mutation plus commit). -/
def putCode (db : Db) (code : String) (ac : ActivationCode) : Db :=
  { db with codes := fun c => if c == code then some ac else db.codes c }

/-- Structured stand-ins for the distinct Russian denial strings of check_access. -/
inductive DenialReason where
  /-- "У вас нет активного пакета…" -/
  | noPackage : DenialReason
  /-- "Срок действия вашего доступа истёк `<date>`…", carrying the date shown. -/
  | expiredOn (date : Int) : DenialReason
  /-- "Вы исчерпали все запросы из текущего пакета…" -/
  | exhausted : DenialReason
deriving Repr, DecidableEq

/-- Structured stand-ins for the two warning strings of check_access. -/
inductive Warning where
  /-- "У вас осталось {remaining} запросов из {total}." -/
  | requests (remaining total : Int) : Warning
  /-- "Ваш доступ истекает через {days} … ({date})." -/
  | days (daysRemaining : Int) (date : Int) : Warning
deriving Repr, DecidableEq

/-- AccessStatus from access.py. -/
structure AccessStatus where
  has_access : Bool
  remaining_requests : Int
  total_requests_in_plan : Int
  used_requests_in_plan : Int
  total_requests_all_time : Int
  expires_at : Option Int
  warning_message : Option Warning
  denial_reason : Option DenialReason
deriving Repr, DecidableEq

/-- The for-loop over a threshold list in check_access: first element equal to
`v`, if any (the loop breaks at the first match). -/
def findThreshold (thresholds : List Int) (v : Int) : Option Int :=
  thresholds.find? (fun t => v == t)

/-- get_or_create_user from access.py: look the user up by telegram_id, or
insert a fresh row with the column defaults (all counters 0, no dates). -/
def get_or_create_user (db : Db) (now : Int) (telegram_id : Int) : Db × User :=
  match db.users telegram_id with
  | some user => (db, user)
  | none =>
    let user : User :=
      { telegram_id := telegram_id
        total_requests_in_plan := 0
        used_requests_in_plan := 0
        total_requests_all_time := 0
        expires_at := none
        last_activation_at := none
        last_request_at := none
        created_at := now
        updated_at := now }
    (putUser db telegram_id user, user)

/-- The state-free body of check_access (access.py lines 83-148): compute the
access status of a user row at instant `now`. -/
def evalAccess (user : User) (now : Int) : AccessStatus :=
  let expires_at := user.expires_at
  let remaining_requests := user.total_requests_in_plan - user.used_requests_in_plan
  let access_expired : Bool :=
    match expires_at with
    | some e => decide (e ≤ now)
    | none => false
  let requests_exhausted : Bool := decide (remaining_requests ≤ 0)
  let has_access : Bool :=
    !access_expired && !requests_exhausted && decide (0 < user.total_requests_in_plan)
  let denial_reason : Option DenialReason :=
    if has_access then none
    else if user.total_requests_in_plan == 0 then some .noPackage
    -- access_expired = true forces expires_at = some e, so getD is never the default
    else if access_expired then some (.expiredOn (expires_at.getD 0))
    else if requests_exhausted then some .exhausted
    else none
  let warning_message : Option Warning :=
    if has_access then
      match findThreshold REQUEST_WARNING_THRESHOLDS remaining_requests with
      | some _ => some (.requests remaining_requests user.total_requests_in_plan)
      | none =>
        match expires_at with
        | some e =>
          let days_remaining := Int.fdiv (e - now) SECONDS_PER_DAY
          match findThreshold DAY_WARNING_THRESHOLDS days_remaining with
          | some _ => some (.days days_remaining e)
          | none => none
        | none => none
    else none
  { has_access := has_access
    remaining_requests := remaining_requests
    total_requests_in_plan := user.total_requests_in_plan
    used_requests_in_plan := user.used_requests_in_plan
    total_requests_all_time := user.total_requests_all_time
    expires_at := expires_at
    warning_message := warning_message
    denial_reason := denial_reason }

/-- check_access from access.py: fetch (or lazily create) the user, then
evaluate.  Returns the possibly-extended store together with the status. -/
def check_access (db : Db) (now : Int) (telegram_id : Int) : Db × AccessStatus :=
  let r := get_or_create_user db now telegram_id
  (r.1, evalAccess r.2 now)

/-- consume_request from access.py: unconditionally bump both counters, stamp
the audit dates, commit, and return a fresh check_access evaluation. -/
def consume_request (db : Db) (now : Int) (telegram_id : Int) : Db × AccessStatus :=
  let r := get_or_create_user db now telegram_id
  let user := r.2
  let user :=
    { user with
        used_requests_in_plan := user.used_requests_in_plan + 1
        total_requests_all_time := user.total_requests_all_time + 1
        last_request_at := some now
        updated_at := now }
  check_access (putUser r.1 telegram_id user) now telegram_id

/-- Structured stand-ins for the user-facing messages of the activation paths. -/
inductive BotMessage where
  /-- activate_or_extend_plan success text, carrying the interpolated numbers. -/
  | planActivated (remaining total : Int) (expires : Int) : BotMessage
  /-- "Вы уже активировали этот код ранее." -/
  | alreadyRedeemedByYou : BotMessage
  /-- "Этот код недействителен или уже использован другим пользователем." -/
  | invalidOrUsedByOther : BotMessage
  /-- "Неверный формат платного кода." (code does not start with bh_). -/
  | invalidPaidFormat : BotMessage
  /-- "Неверный формат платного кода. Код должен быть вида bh_<число>." -/
  | invalidPaidFormatNotNumber : BotMessage
  /-- activate_paid_code_bh first-activation success text. -/
  | paidFirstActivation (total : Int) (expires : Int) : BotMessage
  /-- activate_paid_code_bh renewal success text. -/
  | paidRenewal (added remaining total : Int) (expires : Int) : BotMessage
deriving Repr, DecidableEq

/-- activate_or_extend_plan from access.py: always add PLAN_REQUESTS to the
package and reset the expiry to now + PLAN_DAYS; always succeeds. -/
def activate_or_extend_plan (db : Db) (now : Int) (telegram_id : Int) :
    Db × Bool × BotMessage :=
  let r := get_or_create_user db now telegram_id
  let user := r.2
  let user :=
    { user with
        total_requests_in_plan := user.total_requests_in_plan + PLAN_REQUESTS
        expires_at := some (now + planDurationSeconds)
        last_activation_at := some now
        updated_at := now }
  let db := putUser r.1 telegram_id user
  let remaining := user.total_requests_in_plan - user.used_requests_in_plan
  (db, true,
    .planActivated remaining user.total_requests_in_plan (now + planDurationSeconds))

/-- activate_code from access.py: generic-code redemption.  Unknown codes are
auto-created already bound to the caller; known unredeemed codes are bound;
known redeemed codes fail with a message that depends on who owns them. -/
def activate_code (db : Db) (now : Int) (telegram_id : Int) (code : String) :
    Db × Bool × BotMessage :=
  match db.codes code with
  | none =>
    let ac : ActivationCode :=
      { code := code, telegram_id := some telegram_id, created_at := now, used_at := some now }
    activate_or_extend_plan (putCode db code ac) now telegram_id
  | some activation_code =>
    match activation_code.telegram_id with
    | none =>
      let ac :=
        { activation_code with telegram_id := some telegram_id, used_at := some now }
      activate_or_extend_plan (putCode db code ac) now telegram_id
    | some owner =>
      if owner == telegram_id then (db, false, .alreadyRedeemedByYou)
      else (db, false, .invalidOrUsedByOther)

/-- create_paid_activation_code from access.py: insert a fresh unredeemed
code; `Except.error` models the ValueError raised on a duplicate code. -/
def create_paid_activation_code (db : Db) (now : Int) (code : String) :
    Except Unit (Db × ActivationCode) :=
  match db.codes code with
  | some _ => .error ()
  | none =>
    let ac : ActivationCode :=
      { code := code, telegram_id := none, created_at := now, used_at := none }
    .ok (putCode db code ac, ac)

/-- Model of Python's `s.startswith(p)`: the first characters of `s` are `p`. -/
def pyStartsWith (s p : String) : Bool :=
  s.toList.take p.toList.length == p.toList

/-- Model of Python's slice `s[n:]`. -/
def pyDrop (s : String) (n : Nat) : String :=
  String.mk (s.toList.drop n)

/-- True if `c` is an ASCII decimal digit. -/
def isDigitChar (c : Char) : Bool := decide ('0' ≤ c) && decide (c ≤ '9')

/-- Model of Python's `int(s)` succeeding on `s`: an optional sign followed by
a nonempty run of decimal digits.  (CPython also tolerates surrounding
whitespace and inner underscores; every claim quantifies over code strings
through this very predicate, so the narrower core is sufficient.) -/
def pyIntAccepts (s : String) : Bool :=
  let chars := s.toList
  let digits :=
    match chars with
    | c :: rest => if c == '+' || c == '-' then rest else chars
    | [] => []
  !digits.isEmpty && digits.all isDigitChar

/-- activate_paid_code_bh from access.py: paid-code redemption.  The format
check precedes any store access; first activation overwrites the package,
renewal adds to it and extends from the later of the old expiry and now. -/
def activate_paid_code_bh (db : Db) (now : Int) (telegram_id : Int) (code : String) :
    Db × Bool × BotMessage :=
  if !(pyStartsWith code "bh_") then (db, false, .invalidPaidFormat)
  else if !(pyIntAccepts (pyDrop code 3)) then (db, false, .invalidPaidFormatNotNumber)
  else
    let r := get_or_create_user db now telegram_id
    let user := r.2
    let is_first_activation := user.total_requests_in_plan == 0
    if is_first_activation then
      let user :=
        { user with
            total_requests_in_plan := PLAN_REQUESTS
            used_requests_in_plan := 0
            expires_at := some (now + planDurationSeconds)
            last_activation_at := some now
            updated_at := now }
      (putUser r.1 telegram_id user, true,
        .paidFirstActivation PLAN_REQUESTS (now + planDurationSeconds))
    else
      let old_expires := user.expires_at
      let new_expires :=
        match old_expires with
        | some e => if now < e then e + planDurationSeconds else now + planDurationSeconds
        | none => now + planDurationSeconds
      let user :=
        { user with
            total_requests_in_plan := user.total_requests_in_plan + PLAN_REQUESTS
            expires_at := some new_expires
            last_activation_at := some now
            updated_at := now }
      let remaining := user.total_requests_in_plan - user.used_requests_in_plan
      (putUser r.1 telegram_id user, true,
        .paidRenewal PLAN_REQUESTS remaining user.total_requests_in_plan new_expires)

/-- The demo code string of models.py. -/
def DEMO_CODE : String := "DEMO100"

/-- ensure_demo_code from models.py: create the DEMO100 code if it is absent,
and reset it to the unredeemed state if it has been redeemed. -/
def ensure_demo_code (db : Db) (now : Int) : Db :=
  match db.codes DEMO_CODE with
  | none =>
    putCode db DEMO_CODE
      { code := DEMO_CODE, telegram_id := none, created_at := now, used_at := none }
  | some demo =>
    match demo.telegram_id with
    | some _ => putCode db DEMO_CODE { demo with telegram_id := none, used_at := none }
    | none => db

/-- A `users` row as it can actually sit in the database: the three Integer
counter columns are nullable at the SQL level, so a legacy or partially
initialized row may hold NULL where the code expects a number.  This raw view
is what format_profile has to survive. -/
structure RawUser where
  telegram_id : Int
  total_requests_in_plan : Option Int
  used_requests_in_plan : Option Int
  total_requests_all_time : Option Int
  expires_at : Option Int
deriving Repr, DecidableEq

/-- check_access reading a raw row: the subtraction on access.py line 96
raises TypeError when either plan counter is NULL (`Except.error`); when both
are present the evaluation proceeds exactly as `evalAccess`.  (The all-time
counter is only stored into the status unread by the profile rendering, so a
NULL there is represented by its 0 default.) -/
def checkAccessRaw (user : RawUser) (now : Int) : Except Unit AccessStatus :=
  match user.total_requests_in_plan, user.used_requests_in_plan with
  | some total, some used =>
    .ok (evalAccess
      { telegram_id := user.telegram_id
        total_requests_in_plan := total
        used_requests_in_plan := used
        total_requests_all_time := user.total_requests_all_time.getD 0
        expires_at := user.expires_at
        last_activation_at := none
        last_request_at := none
        created_at := 0
        updated_at := 0 } now)
  | _, _ => .error ()

/-- Structured stand-ins for the three texts format_profile can return. -/
inductive ProfileText where
  /-- "У вас пока нет активного доступа." branch (plus payment link if configured). -/
  | neverActivated (hasPaymentLink : Bool) : ProfileText
  /-- The full profile rendering: status line, counters, optional expiry line,
  lifetime total, and whether the renewal/upsell block was appended. -/
  | summary (active : Bool) (total used remaining : Int) (expiresShown : Option Int)
      (allTime : Int) (renewalAppended : Bool) (hasPaymentLink : Bool) : ProfileText
  /-- The generic fallback returned from the except-handler. -/
  | fallback : ProfileText
deriving Repr, DecidableEq

/-- The body of format_profile for a fetched row (access.py lines 259-333):
everything inside the try-block, with the except-handler mapping any internal
failure to the generic fallback text. -/
def format_profile_user (user : RawUser) (now : Int) (paymentLink : Bool) : ProfileText :=
  match checkAccessRaw user now with
  | .error _ => .fallback
  | .ok status =>
    let total_in_plan := user.total_requests_in_plan.getD 0
    let used_in_plan := user.used_requests_in_plan.getD 0
    let total_all_time := user.total_requests_all_time.getD 0
    let remaining := total_in_plan - used_in_plan
    let has_ever_activated := decide (0 < total_in_plan) || decide (0 < total_all_time)
    if !has_ever_activated then .neverActivated paymentLink
    else
      let renewal := !status.has_access || decide (remaining < 20)
      .summary status.has_access total_in_plan used_in_plan remaining user.expires_at
        total_all_time renewal paymentLink

/-- format_profile from access.py: fetch or lazily create the row (a created
row has the non-null column defaults), then render it. -/
def format_profile (users : Int → Option RawUser) (now : Int) (telegram_id : Int)
    (paymentLink : Bool) : ProfileText :=
  let user :=
    match users telegram_id with
    | some u => u
    | none =>
      { telegram_id := telegram_id
        total_requests_in_plan := some 0
        used_requests_in_plan := some 0
        total_requests_all_time := some 0
        expires_at := none }
  format_profile_user user now paymentLink

/-- Modelled from the spec: profile rendering as section 4.4 words it, for
comparison with `format_profile_user`.  The spec asks that a NULL numeric
counter be substituted with 0 before any read ("must defensively substitute 0
for any null numeric counter"), after which the row is rendered normally. -/
def format_profile_spec (user : RawUser) (now : Int) (paymentLink : Bool) : ProfileText :=
  let total_in_plan := user.total_requests_in_plan.getD 0
  let used_in_plan := user.used_requests_in_plan.getD 0
  let total_all_time := user.total_requests_all_time.getD 0
  let remaining := total_in_plan - used_in_plan
  let status := evalAccess
    { telegram_id := user.telegram_id
      total_requests_in_plan := total_in_plan
      used_requests_in_plan := used_in_plan
      total_requests_all_time := total_all_time
      expires_at := user.expires_at
      last_activation_at := none
      last_request_at := none
      created_at := 0
      updated_at := 0 } now
  let has_ever_activated := decide (0 < total_in_plan) || decide (0 < total_all_time)
  if !has_ever_activated then .neverActivated paymentLink
  else
    let renewal := !status.has_access || decide (remaining < 20)
    .summary status.has_access total_in_plan used_in_plan remaining user.expires_at
      total_all_time renewal paymentLink

/-- One operation of the system, as dispatched from bot.py, payment_api.py and
the startup hook: everything that can touch the two tables. -/
inductive Op where
  | opGetOrCreate (telegram_id : Int) : Op
  | opCheckAccess (telegram_id : Int) : Op
  | opConsume (telegram_id : Int) : Op
  | opActivatePlan (telegram_id : Int) : Op
  | opActivateCode (telegram_id : Int) (code : String) : Op
  | opCreatePaidCode (code : String) : Op
  | opActivatePaidBh (telegram_id : Int) (code : String) : Op
  | opEnsureDemoCode : Op
deriving Repr, DecidableEq

/-- Effect of one operation on the store (messages and statuses discarded; a
failed paid-code issuance leaves the store untouched, as the raised
ValueError aborts before any insert). -/
def applyOp (db : Db) (now : Int) : Op → Db
  | .opGetOrCreate t => (get_or_create_user db now t).1
  | .opCheckAccess t => (check_access db now t).1
  | .opConsume t => (consume_request db now t).1
  | .opActivatePlan t => (activate_or_extend_plan db now t).1
  | .opActivateCode t c => (activate_code db now t c).1
  | .opCreatePaidCode c =>
    match create_paid_activation_code db now c with
    | .ok r => r.1
    | .error _ => db
  | .opActivatePaidBh t c => (activate_paid_code_bh db now t c).1
  | .opEnsureDemoCode => ensure_demo_code db now

/-- Run a timed sequence of operations against the store. -/
def runOps (db : Db) (ops : List (Int × Op)) : Db :=
  ops.foldl (fun d p => applyOp d p.1 p.2) db

/-- Current plan capacity of an identity (0 when the row does not exist yet,
matching the column default a lazily created row would get). -/
def planCapacity (db : Db) (telegram_id : Int) : Int :=
  match db.users telegram_id with
  | some u => u.total_requests_in_plan
  | none => 0

/-- Current used-in-plan counter of an identity (0 when the row is absent). -/
def planUsed (db : Db) (telegram_id : Int) : Int :=
  match db.users telegram_id with
  | some u => u.used_requests_in_plan
  | none => 0

/-- Current lifetime counter of an identity (0 when the row is absent). -/
def lifetimeUsed (db : Db) (telegram_id : Int) : Int :=
  match db.users telegram_id with
  | some u => u.total_requests_all_time
  | none => 0

/-- A sequence of consume_request calls by one user, at the given instants. -/
def consumeSeq (db : Db) (telegram_id : Int) (times : List Int) : Db :=
  times.foldl (fun d t => (consume_request d t telegram_id).1) db

/-- Fixture: a user row with defaults, identity 1, created at instant 0. -/
def baseUser : User :=
  { telegram_id := 1
    total_requests_in_plan := 0
    used_requests_in_plan := 0
    total_requests_all_time := 0
    expires_at := none
    last_activation_at := none
    last_request_at := none
    created_at := 0
    updated_at := 0 }

/-- Fixture: a store whose only row is `baseUser`. -/
def knownUserDb : Db := putUser emptyDb 1 baseUser

/-- Fixture: an active user 10 requests from exhaustion, far from expiry. -/
def warnUser : User :=
  { baseUser with
      total_requests_in_plan := 100
      used_requests_in_plan := 90
      total_requests_all_time := 90
      expires_at := some 10000000 }

/-- Fixture: an active user with a 100-request package, 20 used, expiring
10 days after instant 0. -/
def renewUser : User :=
  { baseUser with
      total_requests_in_plan := 100
      used_requests_in_plan := 20
      total_requests_all_time := 20
      expires_at := some (10 * SECONDS_PER_DAY) }

/-- Fixture: a store whose only row is `renewUser`. -/
def renewDb : Db := putUser emptyDb 1 renewUser

/-- Fixture: a generic code already redeemed by user 1. -/
def ownedCode : ActivationCode :=
  { code := "ABC123", telegram_id := some 1, created_at := 0, used_at := some 0 }

/-- Fixture: a store whose ledger holds only `ownedCode`. -/
def ownedDb : Db := putCode (putUser emptyDb 1 renewUser) "ABC123" ownedCode

/-- Fixture: a user without a package but with a future expiry date and a
nonzero used counter, exercising the denial-priority rule. -/
def capZeroUser : User :=
  { baseUser with
      used_requests_in_plan := 5
      total_requests_all_time := 5
      expires_at := some 999999 }

/-- Fixture: a raw user row in which every numeric counter column is NULL. -/
def rawNullUser : RawUser :=
  { telegram_id := 1
    total_requests_in_plan := none
    used_requests_in_plan := none
    total_requests_all_time := none
    expires_at := none }

/-! Store lemmas: how the two keyed writes interact with lookups. -/

@[simp]
theorem putUser_codes (db : Db) (t : Int) (u : User) : (putUser db t u).codes = db.codes :=
  rfl

@[simp]
theorem putCode_users (db : Db) (c : String) (ac : ActivationCode) :
    (putCode db c ac).users = db.users :=
  rfl

@[simp]
theorem putUser_users_same (db : Db) (t : Int) (u : User) :
    (putUser db t u).users t = some u := by
  simp [putUser]

theorem putUser_users_other (db : Db) (t t' : Int) (u : User) (h : t' ≠ t) :
    (putUser db t u).users t' = db.users t' := by
  simp [putUser, h]

@[simp]
theorem putCode_codes_same (db : Db) (c : String) (ac : ActivationCode) :
    (putCode db c ac).codes c = some ac := by
  simp [putCode]

theorem putCode_codes_other (db : Db) (c c' : String) (ac : ActivationCode) (h : c' ≠ c) :
    (putCode db c ac).codes c' = db.codes c' := by
  simp [putCode, h]

@[simp]
theorem get_or_create_user_codes (db : Db) (now t : Int) :
    (get_or_create_user db now t).1.codes = db.codes := by
  unfold get_or_create_user
  cases db.users t <;> simp

@[simp]
theorem check_access_codes (db : Db) (now t : Int) :
    (check_access db now t).1.codes = db.codes := by
  simp [check_access]

@[simp]
theorem consume_request_codes (db : Db) (now t : Int) :
    (consume_request db now t).1.codes = db.codes := by
  simp [consume_request]

@[simp]
theorem activate_or_extend_plan_codes (db : Db) (now t : Int) :
    (activate_or_extend_plan db now t).1.codes = db.codes := by
  simp [activate_or_extend_plan]

@[simp]
theorem activate_paid_code_bh_codes (db : Db) (now t : Int) (c : String) :
    (activate_paid_code_bh db now t c).1.codes = db.codes := by
  unfold activate_paid_code_bh
  split
  · rfl
  · split
    · rfl
    · dsimp only
      split <;> simp

/-- What activate_or_extend_plan does to the redeeming user's row. -/
theorem activate_or_extend_plan_spec (db : Db) (now t : Int) :
    (activate_or_extend_plan db now t).2.1 = true ∧
    ∃ u, (activate_or_extend_plan db now t).1.users t = some u ∧
      u.expires_at = some (now + planDurationSeconds) ∧
      u.total_requests_in_plan = planCapacity db t + PLAN_REQUESTS ∧
      u.used_requests_in_plan = planUsed db t ∧
      u.last_activation_at = some now ∧
      u.updated_at = now := by
  unfold activate_or_extend_plan get_or_create_user
  cases h : db.users t <;>
    simp [planCapacity, planUsed, h]

/-- C1: every successful generic-code redemption (unknown code auto-created,
or known unredeemed code) succeeds, resets the redeemer's expires_at to
exactly now + PLAN_DAYS — whatever the prior expiry was — and adds exactly
PLAN_REQUESTS to the plan capacity. -/
theorem generic_redemption_resets_expiry (db : Db) (now telegram_id : Int) (code : String)
    (h : db.codes code = none ∨ ∃ ac, db.codes code = some ac ∧ ac.telegram_id = none) :
    (activate_code db now telegram_id code).2.1 = true ∧
    ∃ u, (activate_code db now telegram_id code).1.users telegram_id = some u ∧
      u.expires_at = some (now + planDurationSeconds) ∧
      u.total_requests_in_plan = planCapacity db telegram_id + PLAN_REQUESTS := by
  have key : ∀ db2 : Db, db2.users = db.users →
      (activate_or_extend_plan db2 now telegram_id).2.1 = true ∧
      ∃ u, (activate_or_extend_plan db2 now telegram_id).1.users telegram_id = some u ∧
        u.expires_at = some (now + planDurationSeconds) ∧
        u.total_requests_in_plan = planCapacity db telegram_id + PLAN_REQUESTS := by
    intro db2 hdb
    obtain ⟨h1, u, h2, h3, h4, _⟩ := activate_or_extend_plan_spec db2 now telegram_id
    refine ⟨h1, u, h2, h3, ?_⟩
    rw [h4]
    unfold planCapacity
    rw [hdb]
  rcases h with h | ⟨ac, hac, hown⟩
  · simp only [activate_code, h]
    exact key _ rfl
  · simp only [activate_code, hac, hown]
    exact key _ rfl

/-- Witness for C1 at a concrete input: redeeming the unknown code ABC123 in
the empty store at instant 0. -/
theorem generic_redemption_resets_expiry_witness :
    emptyDb.codes "ABC123" = none ∧
    ((activate_code emptyDb 0 1 "ABC123").2.1 = true ∧
     ∃ u, (activate_code emptyDb 0 1 "ABC123").1.users 1 = some u ∧
       u.expires_at = some (0 + planDurationSeconds) ∧
       u.total_requests_in_plan = planCapacity emptyDb 1 + PLAN_REQUESTS) :=
  ⟨rfl, generic_redemption_resets_expiry emptyDb 0 1 "ABC123" (Or.inl rfl)⟩

/-- C6: redeeming an already-redeemed generic code fails and leaves the whole
store (both tables, hence every entitlement) unchanged; the failure message is
"already redeemed by you" for the owner and "invalid or already used" for
anyone else. -/
theorem redeemed_code_rejected (db : Db) (now telegram_id : Int) (code : String)
    (ac : ActivationCode) (owner : Int)
    (hc : db.codes code = some ac) (ho : ac.telegram_id = some owner) :
    (activate_code db now telegram_id code).1 = db ∧
    (activate_code db now telegram_id code).2.1 = false ∧
    (owner = telegram_id →
      (activate_code db now telegram_id code).2.2 = .alreadyRedeemedByYou) ∧
    (owner ≠ telegram_id →
      (activate_code db now telegram_id code).2.2 = .invalidOrUsedByOther) := by
  simp only [activate_code, hc, ho]
  by_cases h : owner = telegram_id
  · subst h
    simp
  · have hb : (owner == telegram_id) = false := by simpa using h
    simp [hb, h]

/-- Witness for C6 at a concrete input: user 1 redeems ABC123 a second time. -/
theorem redeemed_code_rejected_witness :
    ownedDb.codes "ABC123" = some ownedCode ∧
    ownedCode.telegram_id = some 1 ∧
    (activate_code ownedDb 5 1 "ABC123").1 = ownedDb ∧
    (activate_code ownedDb 5 1 "ABC123").2.1 = false ∧
    (activate_code ownedDb 5 1 "ABC123").2.2 = .alreadyRedeemedByYou := by
  have h := redeemed_code_rejected ownedDb 5 1 "ABC123" ownedCode 1 (by decide) rfl
  exact ⟨by decide, rfl, h.1, h.2.1, h.2.2.1 rfl⟩

/-- C2: redeeming a well-formed paid code as a user with positive capacity
adds exactly PLAN_REQUESTS and extends the expiry from the later of the old
expiry and now; as a user with zero capacity it installs a fresh package
(capacity PLAN_REQUESTS, used 0, expiry now + PLAN_DAYS). -/
theorem paid_redemption_semantics (db : Db) (now telegram_id : Int) (code : String) (u : User)
    (hfmt : pyStartsWith code "bh_" = true)
    (hnum : pyIntAccepts (pyDrop code 3) = true)
    (hu : db.users telegram_id = some u) :
    (0 < u.total_requests_in_plan →
      (activate_paid_code_bh db now telegram_id code).2.1 = true ∧
      ∃ u2, (activate_paid_code_bh db now telegram_id code).1.users telegram_id = some u2 ∧
        u2.total_requests_in_plan = u.total_requests_in_plan + PLAN_REQUESTS ∧
        u2.used_requests_in_plan = u.used_requests_in_plan ∧
        u2.expires_at = some ((match u.expires_at with
          | some e => if now < e then e else now
          | none => now) + planDurationSeconds)) ∧
    (u.total_requests_in_plan = 0 →
      (activate_paid_code_bh db now telegram_id code).2.1 = true ∧
      ∃ u2, (activate_paid_code_bh db now telegram_id code).1.users telegram_id = some u2 ∧
        u2.total_requests_in_plan = PLAN_REQUESTS ∧
        u2.used_requests_in_plan = 0 ∧
        u2.expires_at = some (now + planDurationSeconds)) := by
  constructor
  · intro hpos
    have hb : (u.total_requests_in_plan == 0) = false := by
      simp only [beq_eq_false_iff_ne, ne_eq]
      omega
    simp only [activate_paid_code_bh, hfmt, hnum, Bool.not_true, Bool.false_eq_true,
      if_false, get_or_create_user, hu, hb]
    refine ⟨trivial, _, putUser_users_same _ _ _, rfl, rfl, ?_⟩
    cases hx : u.expires_at with
    | none => rfl
    | some e =>
      by_cases he : now < e
      · simp [he]
      · simp [he]
  · intro hzero
    have hb : (u.total_requests_in_plan == 0) = true := by
      simp [hzero]
    simp only [activate_paid_code_bh, hfmt, hnum, Bool.not_true, Bool.false_eq_true,
      if_false, get_or_create_user, hu, hb, eq_self_iff_true, if_true]
    exact ⟨trivial, _, putUser_users_same _ _ _, rfl, rfl, rfl⟩

/-- Witness for C2 at the concrete input named by the claim: a user whose
access expires 10 days after now = 0 ends, after redeeming bh_95, with expiry
10 + 30 days after now. -/
theorem paid_redemption_semantics_witness :
    pyStartsWith "bh_95" "bh_" = true ∧
    renewDb.users 1 = some renewUser ∧
    0 < renewUser.total_requests_in_plan ∧
    ((activate_paid_code_bh renewDb 0 1 "bh_95").2.1 = true ∧
     ∃ u2, (activate_paid_code_bh renewDb 0 1 "bh_95").1.users 1 = some u2 ∧
       u2.total_requests_in_plan = renewUser.total_requests_in_plan + PLAN_REQUESTS ∧
       u2.used_requests_in_plan = renewUser.used_requests_in_plan ∧
       u2.expires_at = some (10 * SECONDS_PER_DAY + planDurationSeconds)) := by
  have h := (paid_redemption_semantics renewDb 0 1 "bh_95" renewUser (by decide) (by decide)
    (by decide)).1 (by decide)
  refine ⟨by decide, by decide, by decide, h.1, ?_⟩
  obtain ⟨u2, h1, h2, h3, h4⟩ := h.2
  refine ⟨u2, h1, h2, h3, ?_⟩
  rw [h4]
  decide

/-- C10: paid-code redemption never touches the code ledger and modifies no
entitlement row other than the redeeming user's; for every well-formed bh_
code it succeeds whatever the ledger holds, i.e. however often the same code
string was redeemed before, by anyone. -/
theorem paid_code_ignores_ledger (db : Db) (now telegram_id : Int) (code : String)
    (hfmt : pyStartsWith code "bh_" = true)
    (hnum : pyIntAccepts (pyDrop code 3) = true) :
    (activate_paid_code_bh db now telegram_id code).2.1 = true ∧
    (activate_paid_code_bh db now telegram_id code).1.codes = db.codes ∧
    ∀ t, t ≠ telegram_id →
      (activate_paid_code_bh db now telegram_id code).1.users t = db.users t := by
  refine ⟨?_, activate_paid_code_bh_codes db now telegram_id code, ?_⟩
  · simp only [activate_paid_code_bh, hfmt, hnum, Bool.not_true, Bool.false_eq_true, if_false]
    split <;> rfl
  · intro t ht
    simp only [activate_paid_code_bh, hfmt, hnum, Bool.not_true, Bool.false_eq_true, if_false]
    unfold get_or_create_user
    cases hdb : db.users telegram_id with
    | some u =>
      try dsimp only
      split <;> exact putUser_users_other _ _ _ _ ht
    | none =>
      try dsimp only
      split <;> rw [putUser_users_other _ _ _ _ ht, putUser_users_other _ _ _ _ ht]

/-- Witness for C10 at a concrete input: user 2 redeems bh_95 against a store
whose ledger and user table are non-empty; the ledger and user 1's row are
untouched. -/
theorem paid_code_ignores_ledger_witness :
    pyStartsWith "bh_95" "bh_" = true ∧
    pyIntAccepts (pyDrop "bh_95" 3) = true ∧
    (activate_paid_code_bh ownedDb 7 2 "bh_95").2.1 = true ∧
    (activate_paid_code_bh ownedDb 7 2 "bh_95").1.codes = ownedDb.codes ∧
    (activate_paid_code_bh ownedDb 7 2 "bh_95").1.users 1 = ownedDb.users 1 := by
  have h := paid_code_ignores_ledger ownedDb 7 2 "bh_95" (by decide) (by decide)
  exact ⟨by decide, by decide, h.1, h.2.1, h.2.2 1 (by decide)⟩

/-- Helper: a successful threshold search returns an element of the list equal
to the probed value. -/
theorem findThreshold_mem {l : List Int} {v th : Int} (h : findThreshold l v = some th) :
    v = th ∧ th ∈ l := by
  unfold findThreshold at h
  refine ⟨?_, List.mem_of_find?_eq_some h⟩
  have hp := List.find?_some h
  simpa using hp

/-- Helper: a failed threshold search means the probed value equals no list
element. -/
theorem findThreshold_none {l : List Int} {v : Int} (h : findThreshold l v = none) :
    ∀ th ∈ l, v ≠ th := by
  unfold findThreshold at h
  intro th hth
  have hp := List.find?_eq_none.mp h th hth
  simpa using hp

/-- Helper: the warning field of an access evaluation, written as the explicit
priority chain it computes. -/
theorem evalAccess_warning_eq (u : User) (now : Int) :
    (evalAccess u now).warning_message =
      if (evalAccess u now).has_access then
        match findThreshold REQUEST_WARNING_THRESHOLDS
            (u.total_requests_in_plan - u.used_requests_in_plan) with
        | some _ => some (.requests (u.total_requests_in_plan - u.used_requests_in_plan)
            u.total_requests_in_plan)
        | none =>
          match u.expires_at with
          | some e =>
            match findThreshold DAY_WARNING_THRESHOLDS (Int.fdiv (e - now) SECONDS_PER_DAY) with
            | some _ => some (.days (Int.fdiv (e - now) SECONDS_PER_DAY) e)
            | none => none
          | none => none
      else none := rfl

/-- C3: the access predicate holds exactly when the user has a package that is
neither expired nor exhausted, and a denied user gets exactly one denial
reason, chosen by the priority no-package, then expired, then exhausted. -/
theorem access_denial_priority (u : User) (now : Int)
    (hcap : 0 ≤ u.total_requests_in_plan) :
    ((evalAccess u now).has_access = true ↔
      (0 < u.total_requests_in_plan ∧ (∀ e ∈ u.expires_at, now < e) ∧
       u.used_requests_in_plan < u.total_requests_in_plan)) ∧
    (u.total_requests_in_plan = 0 →
      (evalAccess u now).denial_reason = some .noPackage) ∧
    (∀ e, u.expires_at = some e → e ≤ now → 0 < u.total_requests_in_plan →
      (evalAccess u now).denial_reason = some (.expiredOn e)) ∧
    ((∀ e ∈ u.expires_at, now < e) → u.total_requests_in_plan ≤ u.used_requests_in_plan →
      0 < u.total_requests_in_plan →
      (evalAccess u now).denial_reason = some .exhausted) ∧
    ((evalAccess u now).has_access = true → (evalAccess u now).denial_reason = none) ∧
    ((evalAccess u now).has_access = false → (evalAccess u now).denial_reason ≠ none) := by
  cases hx : u.expires_at with
  | none =>
    by_cases h1 : 0 < u.total_requests_in_plan
    · have hne : u.total_requests_in_plan ≠ 0 := by omega
      by_cases h2 : u.used_requests_in_plan < u.total_requests_in_plan
      · have hnle : ¬(u.total_requests_in_plan ≤ u.used_requests_in_plan) := by omega
        simp [evalAccess, hx, h1, h2, hne, hnle]
      · have hle : u.total_requests_in_plan ≤ u.used_requests_in_plan := by omega
        simp [evalAccess, hx, h1, h2, hne, hle]
    · have h0 : u.total_requests_in_plan = 0 := by omega
      simp [evalAccess, hx, h0]
  | some e =>
    by_cases h3 : now < e
    · have hne3 : ¬(e ≤ now) := by omega
      by_cases h1 : 0 < u.total_requests_in_plan
      · have hne : u.total_requests_in_plan ≠ 0 := by omega
        by_cases h2 : u.used_requests_in_plan < u.total_requests_in_plan
        · have hnle : ¬(u.total_requests_in_plan ≤ u.used_requests_in_plan) := by omega
          simp [evalAccess, hx, h1, h2, h3, hne, hne3, hnle]
        · have hle : u.total_requests_in_plan ≤ u.used_requests_in_plan := by omega
          simp [evalAccess, hx, h1, h2, h3, hne, hne3, hle]
      · have h0 : u.total_requests_in_plan = 0 := by omega
        simp [evalAccess, hx, h0, h3, hne3]
    · have hle3 : e ≤ now := by omega
      by_cases h1 : 0 < u.total_requests_in_plan
      · have hne : u.total_requests_in_plan ≠ 0 := by omega
        simp [evalAccess, hx, h1, h3, hne, hle3]
      · have h0 : u.total_requests_in_plan = 0 := by omega
        simp [evalAccess, hx, h0, h3, hle3]

/-- Witness for C3 at a concrete input: a user with zero capacity but a future
expiry and nonzero usage is denied with the no-package reason. -/
theorem access_denial_priority_witness :
    0 ≤ capZeroUser.total_requests_in_plan ∧
    capZeroUser.total_requests_in_plan = 0 ∧
    (evalAccess capZeroUser 0).denial_reason = some .noPackage := by
  have h := access_denial_priority capZeroUser 0 (by decide)
  exact ⟨by decide, rfl, h.2.1 rfl⟩

/-- C4: warnings only fire for users with access; the request warning fires on
exact equality with a threshold of the descending list and reports the
remaining count; the day warning fires only when no request threshold matched,
on exact equality of the floored day distance with a day threshold; remaining
10 warns, remaining 9 does not. -/
theorem warning_selection (u : User) (now : Int) :
    ((evalAccess u now).has_access = false → (evalAccess u now).warning_message = none) ∧
    ((evalAccess u now).has_access = true →
      u.total_requests_in_plan - u.used_requests_in_plan = 10 →
      (evalAccess u now).warning_message = some (.requests 10 u.total_requests_in_plan)) ∧
    (u.total_requests_in_plan - u.used_requests_in_plan = 9 →
      ∀ r t, (evalAccess u now).warning_message ≠ some (.requests r t)) ∧
    (∀ r t, (evalAccess u now).warning_message = some (.requests r t) →
      (evalAccess u now).has_access = true ∧
      r = u.total_requests_in_plan - u.used_requests_in_plan ∧
      t = u.total_requests_in_plan ∧ (r = 30 ∨ r = 10 ∨ r = 3)) ∧
    (∀ d e, (evalAccess u now).warning_message = some (.days d e) →
      (evalAccess u now).has_access = true ∧
      u.expires_at = some e ∧
      (∀ th ∈ REQUEST_WARNING_THRESHOLDS,
        u.total_requests_in_plan - u.used_requests_in_plan ≠ th) ∧
      d = Int.fdiv (e - now) SECONDS_PER_DAY ∧ (d = 7 ∨ d = 3 ∨ d = 1)) := by
  have hw := evalAccess_warning_eq u now
  by_cases hacc : (evalAccess u now).has_access = true
  · rw [if_pos hacc] at hw
    refine ⟨?_, ?_, ?_, ?_, ?_⟩
    · intro hfalse
      rw [hacc] at hfalse
      exact absurd hfalse (by simp)
    · intro _ hrem
      have h10 : findThreshold REQUEST_WARNING_THRESHOLDS (10 : Int) = some 10 := by decide
      rw [hw, hrem]
      simp only [h10]
    · intro hrem r t
      have h9 : findThreshold REQUEST_WARNING_THRESHOLDS (9 : Int) = none := by decide
      rw [hw, hrem]
      simp only [h9]
      cases hx : u.expires_at with
      | none => simp
      | some e =>
        cases hg : findThreshold DAY_WARNING_THRESHOLDS (Int.fdiv (e - now) SECONDS_PER_DAY) with
        | none => simp [hg]
        | some th => simp [hg]
    · intro r t hrt
      rw [hw] at hrt
      cases hf : findThreshold REQUEST_WARNING_THRESHOLDS
          (u.total_requests_in_plan - u.used_requests_in_plan) with
      | some th =>
        simp only [hf] at hrt
        obtain ⟨hv, hmem⟩ := findThreshold_mem hf
        have hpair : u.total_requests_in_plan - u.used_requests_in_plan = r ∧
            u.total_requests_in_plan = t := by
          simpa using hrt
        refine ⟨hacc, hpair.1.symm, hpair.2.symm, ?_⟩
        rw [← hpair.1, hv]
        simpa [REQUEST_WARNING_THRESHOLDS] using hmem
      | none =>
        simp only [hf] at hrt
        cases hx : u.expires_at with
        | none =>
          simp only [hx] at hrt
          exact absurd hrt (by simp)
        | some e =>
          simp only [hx] at hrt
          cases hg : findThreshold DAY_WARNING_THRESHOLDS
              (Int.fdiv (e - now) SECONDS_PER_DAY) with
          | none =>
            simp only [hg] at hrt
            exact absurd hrt (by simp)
          | some th =>
            simp only [hg] at hrt
            exact absurd hrt (by simp)
    · intro d e hde
      rw [hw] at hde
      cases hf : findThreshold REQUEST_WARNING_THRESHOLDS
          (u.total_requests_in_plan - u.used_requests_in_plan) with
      | some th =>
        simp only [hf] at hde
        exact absurd hde (by simp)
      | none =>
        simp only [hf] at hde
        cases hx : u.expires_at with
        | none =>
          simp only [hx] at hde
          exact absurd hde (by simp)
        | some e2 =>
          simp only [hx] at hde
          cases hg : findThreshold DAY_WARNING_THRESHOLDS
              (Int.fdiv (e2 - now) SECONDS_PER_DAY) with
          | none =>
            simp only [hg] at hde
            exact absurd hde (by simp)
          | some th =>
            simp only [hg] at hde
            obtain ⟨hv, hmem⟩ := findThreshold_mem hg
            have hde2 : Int.fdiv (e2 - now) SECONDS_PER_DAY = d ∧ e2 = e := by
              simpa using hde
            have hdth : d = th := hde2.1.symm.trans hv
            refine ⟨hacc, ?_, findThreshold_none hf, ?_, ?_⟩
            · exact congrArg some hde2.2
            · rw [← hde2.2]
              exact hde2.1.symm
            · rw [hdth]
              simpa [DAY_WARNING_THRESHOLDS] using hmem
  · have hfalse : (evalAccess u now).has_access = false := by
      simpa using hacc
    rw [if_neg hacc] at hw
    refine ⟨fun _ => hw, ?_, ?_, ?_, ?_⟩
    · intro htrue
      rw [htrue] at hfalse
      exact absurd hfalse (by simp)
    · intro _ r t
      rw [hw]
      simp
    · intro r t hrt
      rw [hw] at hrt
      exact absurd hrt (by simp)
    · intro d e hde
      rw [hw] at hde
      exact absurd hde (by simp)

/-- Witness for C4 at a concrete input: the user at remaining = 10 receives
the threshold-10 request warning. -/
theorem warning_selection_witness :
    (evalAccess warnUser 5).has_access = true ∧
    warnUser.total_requests_in_plan - warnUser.used_requests_in_plan = 10 ∧
    (evalAccess warnUser 5).warning_message =
      some (.requests 10 warnUser.total_requests_in_plan) :=
  ⟨by decide, by decide, (warning_selection warnUser 5).2.1 (by decide) (by decide)⟩

/-- Helper: effect of one consume_request call on the caller's row and on the
returned status. -/
theorem consume_request_spec (db : Db) (now telegram_id : Int) :
    ∃ u, (consume_request db now telegram_id).1.users telegram_id = some u ∧
      u.used_requests_in_plan = planUsed db telegram_id + 1 ∧
      u.total_requests_all_time = lifetimeUsed db telegram_id + 1 ∧
      u.last_request_at = some now ∧
      u.updated_at = now ∧
      (consume_request db now telegram_id).2 = evalAccess u now := by
  unfold consume_request check_access get_or_create_user
  cases h : db.users telegram_id with
  | some u0 =>
    simp only [h, planUsed, lifetimeUsed, putUser_users_same]
    exact ⟨_, rfl, rfl, rfl, rfl, rfl, rfl⟩
  | none =>
    simp only [h, planUsed, lifetimeUsed, putUser_users_same]
    exact ⟨_, rfl, rfl, rfl, rfl, rfl, rfl⟩

/-- C5: consume_request unconditionally increments plan_used and
lifetime_used by exactly one, stamps last_request_at and updated_at, returns a
fresh evaluation of the updated row, and over any sequence of consume calls
plan_used grows by exactly one per call, never decreasing. -/
theorem consume_increments (db : Db) (now telegram_id : Int) (times : List Int) :
    (∃ u, (consume_request db now telegram_id).1.users telegram_id = some u ∧
      u.used_requests_in_plan = planUsed db telegram_id + 1 ∧
      u.total_requests_all_time = lifetimeUsed db telegram_id + 1 ∧
      u.last_request_at = some now ∧
      u.updated_at = now ∧
      (consume_request db now telegram_id).2 = evalAccess u now) ∧
    planUsed (consumeSeq db telegram_id times) telegram_id =
      planUsed db telegram_id + times.length := by
  refine ⟨consume_request_spec db now telegram_id, ?_⟩
  induction times generalizing db with
  | nil => simp [consumeSeq]
  | cons t ts ih =>
    have hstep : planUsed (consume_request db t telegram_id).1 telegram_id =
        planUsed db telegram_id + 1 := by
      obtain ⟨u, h1, h2, _⟩ := consume_request_spec db t telegram_id
      unfold planUsed
      simp only [h1]
      exact h2
    have hseq : consumeSeq db telegram_id (t :: ts) =
        consumeSeq (consume_request db t telegram_id).1 telegram_id ts := rfl
    rw [hseq, ih, hstep]
    push_cast [List.length_cons]
    ring

/-- Counterexample for C7: the system operation ensure_demo_code, run at every
bot startup, resets the already-redeemed code DEMO100 back to the unredeemed
state, so an owned code does return to owner None under a sequence of system
operations. -/
theorem demo_code_reset_counterexample :
    ((runOps emptyDb [(0, .opActivateCode 1 DEMO_CODE)]).codes DEMO_CODE).map
        ActivationCode.telegram_id = some (some 1) ∧
    ((runOps emptyDb [(0, .opActivateCode 1 DEMO_CODE), (5, .opEnsureDemoCode)]).codes
        DEMO_CODE).map ActivationCode.telegram_id = some none := by
  exact ⟨by decide, by decide⟩

/-- Helper: one system operation preserves the owner of any redeemed code
other than DEMO100. -/
theorem applyOp_preserves_owner (db : Db) (now : Int) (op : Op) (c : String) (o : Int)
    (hne : c ≠ DEMO_CODE)
    (h : (db.codes c).map ActivationCode.telegram_id = some (some o)) :
    ((applyOp db now op).codes c).map ActivationCode.telegram_id = some (some o) := by
  cases op with
  | opGetOrCreate t => simpa [applyOp] using h
  | opCheckAccess t => simpa [applyOp] using h
  | opConsume t => simpa [applyOp] using h
  | opActivatePlan t => simpa [applyOp] using h
  | opActivatePaidBh t c2 => simpa [applyOp] using h
  | opActivateCode t c2 =>
    simp only [applyOp]
    unfold activate_code
    cases hc2 : db.codes c2 with
    | none =>
      by_cases hcc : c = c2
      · subst hcc
        rw [hc2] at h
        simp at h
      · simp only [activate_or_extend_plan_codes]
        rw [putCode_codes_other _ _ _ _ hcc]
        exact h
    | some ac =>
      cases ho2 : ac.telegram_id with
      | none =>
        simp only [ho2]
        by_cases hcc : c = c2
        · subst hcc
          rw [hc2] at h
          simp [ho2] at h
        · simp only [activate_or_extend_plan_codes]
          rw [putCode_codes_other _ _ _ _ hcc]
          exact h
      | some owner =>
        simp only [ho2]
        split
        · exact h
        · exact h
  | opCreatePaidCode c2 =>
    simp only [applyOp]
    unfold create_paid_activation_code
    cases hc2 : db.codes c2 with
    | some ac => exact h
    | none =>
      by_cases hcc : c = c2
      · subst hcc
        rw [hc2] at h
        simp at h
      · rw [putCode_codes_other _ _ _ _ hcc]
        exact h
  | opEnsureDemoCode =>
    simp only [applyOp]
    unfold ensure_demo_code
    split
    · rw [putCode_codes_other _ _ _ _ hne]
      exact h
    · split
      · rw [putCode_codes_other _ _ _ _ hne]
        exact h
      · exact h

/-- C7 as amended: for every code other than the demo code DEMO100, once the
owner is set it survives every sequence of system operations unchanged — the
code never transfers, never returns to the unredeemed state, and is never
deleted.  (DEMO100 itself is exempt: ensure_demo_code deliberately resets it
at startup.) -/
theorem code_owner_permanent (db : Db) (ops : List (Int × Op)) (c : String) (o : Int)
    (hne : c ≠ DEMO_CODE)
    (h : (db.codes c).map ActivationCode.telegram_id = some (some o)) :
    ((runOps db ops).codes c).map ActivationCode.telegram_id = some (some o) := by
  induction ops generalizing db with
  | nil => exact h
  | cons p ps ih => exact ih _ (applyOp_preserves_owner db p.1 p.2 c o hne h)

/-- Witness for C7 at a concrete input: the redeemed code ABC123 keeps its
owner across a startup reset and a foreign redemption attempt. -/
theorem code_owner_permanent_witness :
    "ABC123" ≠ DEMO_CODE ∧
    (ownedDb.codes "ABC123").map ActivationCode.telegram_id = some (some 1) ∧
    ((runOps ownedDb [(3, .opEnsureDemoCode), (4, .opActivateCode 2 "ABC123")]).codes
        "ABC123").map ActivationCode.telegram_id = some (some 1) :=
  ⟨by decide, by decide,
    code_owner_permanent ownedDb [(3, .opEnsureDemoCode), (4, .opActivateCode 2 "ABC123")]
      "ABC123" 1 (by decide) (by decide)⟩

/-- Counterexample for C8: evaluating access for an identity with no stored
row inserts a fresh row, so the entitlement store differs after the
evaluation — access evaluation through check_access is not a pure read for
every identity. -/
theorem check_access_mutates_on_unknown_user :
    (check_access emptyDb 0 1).1.users 1 ≠ emptyDb.users 1 := by
  decide

/-- C8 as amended: check_access never touches the code ledger; for an
identity that already has a row it performs no mutation at all; and for an
unknown identity the only change is the lazy insertion of that identity's own
fresh default row — every other user row is untouched. -/
theorem check_access_read_only (db : Db) (now telegram_id : Int) :
    (check_access db now telegram_id).1.codes = db.codes ∧
    (∀ u, db.users telegram_id = some u → (check_access db now telegram_id).1 = db) ∧
    (∀ t, t ≠ telegram_id → (check_access db now telegram_id).1.users t = db.users t) := by
  refine ⟨check_access_codes db now telegram_id, ?_, ?_⟩
  · intro u hu
    simp [check_access, get_or_create_user, hu]
  · intro t ht
    unfold check_access get_or_create_user
    cases hu : db.users telegram_id with
    | some u => rfl
    | none => exact putUser_users_other _ _ _ _ ht

/-- Witness for C8 at a concrete input: evaluating a known identity leaves
the store untouched. -/
theorem check_access_read_only_witness :
    knownUserDb.users 1 = some baseUser ∧
    (check_access knownUserDb 0 1).1 = knownUserDb :=
  ⟨by decide, (check_access_read_only knownUserDb 0 1).2.1 baseUser (by decide)⟩

/-- Counterexample for C9: on a row whose plan counters are NULL the profile
formatter returns the generic fallback text, not the rendering with 0
substituted for the NULL counters that the spec describes — the internal
evaluation fails before the substitution point is reached. -/
theorem profile_null_counters_not_substituted :
    format_profile_user rawNullUser 0 false = .fallback ∧
    format_profile_spec rawNullUser 0 false = .neverActivated false ∧
    format_profile_user rawNullUser 0 false ≠ format_profile_spec rawNullUser 0 false :=
  ⟨by decide, by decide, by decide⟩

/-- C9 as amended: profile formatting never raises — a NULL plan counter
(capacity or used) makes the internal access evaluation fail and the generic
fallback is returned; when both plan counters are present the formatter never
falls back, a NULL lifetime counter is substituted by 0, and the
upsell/renewal block is appended exactly when access is absent or fewer than
20 requests remain. -/
theorem profile_formatting_defensive (user : RawUser) (now : Int) (pl : Bool) :
    ((user.total_requests_in_plan = none ∨ user.used_requests_in_plan = none) →
      format_profile_user user now pl = .fallback) ∧
    (∀ total used, user.total_requests_in_plan = some total →
      user.used_requests_in_plan = some used →
      format_profile_user user now pl ≠ .fallback) ∧
    (∀ a tot us rem exp allT ren pl2,
      format_profile_user user now pl = .summary a tot us rem exp allT ren pl2 →
      ren = (!a || decide (rem < 20)) ∧
      allT = user.total_requests_all_time.getD 0 ∧
      rem = tot - us) := by
  cases ht : user.total_requests_in_plan with
  | none =>
    have hfb : format_profile_user user now pl = .fallback := by
      unfold format_profile_user checkAccessRaw
      rw [ht]
    refine ⟨fun _ => hfb, ?_, ?_⟩
    · intro total used htot _
      exact absurd htot (by simp)
    · intro a tot us rem exp allT ren pl2 hsum
      rw [hfb] at hsum
      exact absurd hsum (by simp)
  | some total =>
    cases hu : user.used_requests_in_plan with
    | none =>
      have hfb : format_profile_user user now pl = .fallback := by
        unfold format_profile_user checkAccessRaw
        rw [ht, hu]
      refine ⟨fun _ => hfb, ?_, ?_⟩
      · intro total2 used2 _ hused
        exact absurd hused (by simp)
      · intro a tot us rem exp allT ren pl2 hsum
        rw [hfb] at hsum
        exact absurd hsum (by simp)
    | some used =>
      have hok : format_profile_user user now pl =
          (let status := evalAccess
            { telegram_id := user.telegram_id
              total_requests_in_plan := total
              used_requests_in_plan := used
              total_requests_all_time := user.total_requests_all_time.getD 0
              expires_at := user.expires_at
              last_activation_at := none
              last_request_at := none
              created_at := 0
              updated_at := 0 } now
          let total_in_plan := user.total_requests_in_plan.getD 0
          let used_in_plan := user.used_requests_in_plan.getD 0
          let total_all_time := user.total_requests_all_time.getD 0
          let remaining := total_in_plan - used_in_plan
          let has_ever_activated := decide (0 < total_in_plan) || decide (0 < total_all_time)
          if !has_ever_activated then ProfileText.neverActivated pl
          else
            ProfileText.summary status.has_access total_in_plan used_in_plan remaining
              user.expires_at total_all_time
              (!status.has_access || decide (remaining < 20)) pl) := by
        unfold format_profile_user checkAccessRaw
        rw [ht, hu]
      refine ⟨?_, ?_, ?_⟩
      · intro hnull
        rcases hnull with hn | hn
        · exact absurd hn (by simp)
        · exact absurd hn (by simp)
      · intro total2 used2 _ _
        rw [hok]
        dsimp only
        split
        · simp
        · simp
      · intro a tot us rem exp allT ren pl2 hsum
        rw [hok] at hsum
        dsimp only at hsum
        split at hsum
        · exact absurd hsum (by simp)
        · have := hsum
          simp only [ProfileText.summary.injEq] at this
          obtain ⟨ha, htot2, hus2, hrem2, _, hallT2, hren2, _⟩ := this
          refine ⟨?_, hallT2.symm, ?_⟩
          · rw [← hren2, ha, hrem2]
          · rw [← hrem2, ← htot2, ← hus2]

/-- Witness for C9 at a concrete input: the all-NULL row takes the fallback
branch. -/
theorem profile_formatting_defensive_witness :
    rawNullUser.total_requests_in_plan = none ∧
    format_profile_user rawNullUser 0 false = .fallback :=
  ⟨rfl, (profile_formatting_defensive rawNullUser 0 false).1 (Or.inl rfl)⟩

end NavigatorBot
